import Mathlib

/-!
Shallow embedding of the gpt_index reader sources:
src/gpt_index/readers/slack.py, src/gpt_index/readers/file.py and
src/tests/mock_utils/mock_utils.py. The Slack WebClient is injected as a pair
of page-fetch functions; Python while-loops are run under explicit fuel, with
fuel exhaustion standing for nontermination. Python exceptions are values of
an error type; a try-except region is embedded by matching on the error of the
statements it covers.
-/

namespace GptIndex

/-- Modelled from the spec: the Document container comes from the schema
module, which is absent from the provided sources. A Document is an opaque
text body plus an optional mapping of string keys to string values. -/
structure Document where
  text : String
  extra_info : Option (List (String × String))
deriving Repr, DecidableEq

/-- The Python exceptions the embedded readers can raise. Only SlackApiError
is ever caught by the except clauses in slack.py. -/
inductive PyErr where
  | slackApiError (msg : String)
  | keyError (key : String)
  | valueError (msg : String)
deriving Repr, DecidableEq

/-- A Slack message record, with the two fields the reader consumes: the text
field and the timestamp identifier ts used to anchor thread lookups. -/
structure SlackMessage where
  text : String
  ts : String
deriving Repr, DecidableEq

/-- One page of a paginated Slack response: the messages list, the has_more
flag, and the next_cursor field of response_metadata when present. Reading an
absent next_cursor raises KeyError, as indexing the Python dict would. -/
structure SlackPage where
  messages : List SlackMessage
  has_more : Bool
  next_cursor : Option String
deriving Repr, DecidableEq

/-- Outcome of running an embedded Python loop under fuel: a normal value, an
uncaught exception, or fuel exhaustion, the last standing for a loop that did
not terminate within the given fuel. -/
inductive RunResult (α : Type) where
  | ok (a : α)
  | exn (e : PyErr)
  | diverge
deriving Repr, DecidableEq

namespace SlackReader

/-- The while-loop of SlackReader._read_message over an injected
conversations_replies fetch (channel and ts already applied, so the fetch is
cursor to page). The fetch stands outside the try block, so its errors
propagate; nothing inside the try raises SlackApiError, so the except clause
is unreachable, and a missing next_cursor raises an uncaught KeyError. -/
def readMessageLoop (fetch : Option String → Except PyErr SlackPage) :
    Nat → List String → Option String → RunResult (List String)
  | 0, _, _ => RunResult.diverge
  | Nat.succ fuel, texts, cur =>
    match fetch cur with
    | Except.error e => RunResult.exn e
    | Except.ok page =>
      let texts2 := texts ++ page.messages.map SlackMessage.text
      if page.has_more then
        match page.next_cursor with
        | none => RunResult.exn (PyErr.keyError "next_cursor")
        | some c => readMessageLoop fetch fuel texts2 (some c)
      else RunResult.ok texts2

/-- SlackReader._read_message: run the reply-pagination loop from a None
cursor and join the accumulated texts with a blank-line separator. -/
def read_message (fetch : Option String → Except PyErr SlackPage) (fuel : Nat) :
    RunResult String :=
  match readMessageLoop fetch fuel [] none with
  | RunResult.ok texts => RunResult.ok (String.intercalate "\n\n" texts)
  | RunResult.exn e => RunResult.exn e
  | RunResult.diverge => RunResult.diverge

/-- Outcome of the for-loop inside SlackReader._read_channel, which appends
one _read_message result per history record to result_messages: when a call
raises, the texts already appended are retained by the caller. -/
inductive ThreadsResult where
  | ok (acc : List String)
  | exn (acc : List String) (e : PyErr)
  | diverge
deriving Repr, DecidableEq

/-- The for-loop inside SlackReader._read_channel: one _read_message call per
record of the fetched history page, in page order. -/
def readThreads (fetchReplies : String → Option String → Except PyErr SlackPage)
    (msgFuel : Nat) : List SlackMessage → List String → ThreadsResult
  | [], acc => ThreadsResult.ok acc
  | m :: ms, acc =>
    match read_message (fetchReplies m.ts) msgFuel with
    | RunResult.ok t => readThreads fetchReplies msgFuel ms (acc ++ [t])
    | RunResult.exn e => ThreadsResult.exn acc e
    | RunResult.diverge => ThreadsResult.diverge

/-- The while-loop of SlackReader._read_channel over an injected
conversations_history fetch (channel already applied). Each iteration first
fetches with the current cursor outside the try block, so that errors there
propagate; then, inside the try block, fetches again WITHOUT a cursor,
overwriting the first result, so the page actually consumed is always the
first page. The except clause catches only SlackApiError, logs, and continues
the loop without breaking. -/
def readChannelLoop (fetchHistory : Option String → Except PyErr SlackPage)
    (fetchReplies : String → Option String → Except PyErr SlackPage)
    (msgFuel : Nat) : Nat → List String → Option String → RunResult (List String)
  | 0, _, _ => RunResult.diverge
  | Nat.succ fuel, acc, cur =>
    match fetchHistory cur with
    | Except.error e => RunResult.exn e
    | Except.ok _ =>
      match fetchHistory none with
      | Except.error (PyErr.slackApiError _) =>
          readChannelLoop fetchHistory fetchReplies msgFuel fuel acc cur
      | Except.error e => RunResult.exn e
      | Except.ok page =>
        match readThreads fetchReplies msgFuel page.messages acc with
        | ThreadsResult.diverge => RunResult.diverge
        | ThreadsResult.exn acc2 (PyErr.slackApiError _) =>
            readChannelLoop fetchHistory fetchReplies msgFuel fuel acc2 cur
        | ThreadsResult.exn _ e => RunResult.exn e
        | ThreadsResult.ok acc2 =>
          if page.has_more then
            match page.next_cursor with
            | none => RunResult.exn (PyErr.keyError "next_cursor")
            | some c => readChannelLoop fetchHistory fetchReplies msgFuel fuel acc2 (some c)
          else RunResult.ok acc2

/-- SlackReader._read_channel: run the history loop from a None cursor and
join the accumulated per-message thread texts with a blank-line separator. -/
def read_channel (fetchHistory : Option String → Except PyErr SlackPage)
    (fetchReplies : String → Option String → Except PyErr SlackPage)
    (msgFuel fuel : Nat) : RunResult String :=
  match readChannelLoop fetchHistory fetchReplies msgFuel fuel [] none with
  | RunResult.ok acc => RunResult.ok (String.intercalate "\n\n" acc)
  | RunResult.exn e => RunResult.exn e
  | RunResult.diverge => RunResult.diverge

/-- The for-loop of SlackReader.load_data: one Document per channel id, in
input order, each tagged with its channel id in extra_info. -/
def loadDataLoop (fetchHistory : String → Option String → Except PyErr SlackPage)
    (fetchReplies : String → String → Option String → Except PyErr SlackPage)
    (msgFuel fuel : Nat) : List String → List Document → RunResult (List Document)
  | [], results => RunResult.ok results
  | cid :: rest, results =>
    match read_channel (fetchHistory cid) (fetchReplies cid) msgFuel fuel with
    | RunResult.ok content =>
        loadDataLoop fetchHistory fetchReplies msgFuel fuel rest
          (results ++ [Document.mk content (some [("channel", cid)])])
    | RunResult.exn e => RunResult.exn e
    | RunResult.diverge => RunResult.diverge

/-- SlackReader.load_data: raises ValueError when the channel_ids keyword is
absent (None); otherwise reads each channel in input order. -/
def load_data (fetchHistory : String → Option String → Except PyErr SlackPage)
    (fetchReplies : String → String → Option String → Except PyErr SlackPage)
    (msgFuel fuel : Nat) (channel_ids : Option (List String)) :
    RunResult (List Document) :=
  match channel_ids with
  | none => RunResult.exn (PyErr.valueError "Must specify a channel_id in load_kwargs.")
  | some ids => loadDataLoop fetchHistory fetchReplies msgFuel fuel ids []

/-- Token resolution in SlackReader.__init__: a None argument falls back to
indexing os.environ, which raises KeyError when the variable is unset; the
subsequent None-check that would raise ValueError cannot fire, because the
indexing either raises or yields a string. -/
def resolveToken (slack_token : Option String) (env : String → Option String) :
    Except PyErr String :=
  match slack_token with
  | some t => Except.ok t
  | none =>
    match env "SLACK_BOT_TOKEN" with
    | none => Except.error (PyErr.keyError "SLACK_BOT_TOKEN")
    | some t => Except.ok t

/-- Response of the api_test liveness call made at the end of __init__. -/
structure ApiTestResponse where
  ok : Bool
  error : String
deriving Repr, DecidableEq

/-- SlackReader.__init__ after the import check: resolve the token, then
construct the client and call api_test with it, raising ValueError when the
liveness check reports failure. -/
def init (slack_token : Option String) (env : String → Option String)
    (apiTest : String → ApiTestResponse) : Except PyErr String :=
  match resolveToken slack_token env with
  | Except.error e => Except.error e
  | Except.ok t =>
    let res := apiTest t
    if res.ok then Except.ok t
    else Except.error (PyErr.valueError ("Error initializing Slack API: " ++ res.error))

end SlackReader

namespace SimpleDirectoryReader

/-- A directory entry as SimpleDirectoryReader sees it: its name, whether it
is a regular file, and the text read from it when it is one. -/
structure DirEntry where
  name : String
  is_file : Bool
  content : String
deriving Repr, DecidableEq

/-- The dot test of the hidden-file filter: whether a name starts with a dot,
written on the character list so that it evaluates by reduction. -/
def startsWithDot (s : String) : Bool :=
  match s.data with
  | [] => false
  | c :: _ => c == '.'

/-- The hidden-file filter of SimpleDirectoryReader.__init__: when
exclude_hidden is set, drop entries whose name starts with a dot. -/
def hiddenFilter (exclude_hidden : Bool) (entries : List DirEntry) : List DirEntry :=
  if exclude_hidden then entries.filter (fun f => !(startsWithDot f.name)) else entries

/-- The validation loop of SimpleDirectoryReader.__init__: the first entry
that is not a regular file, in enumeration order, if any. -/
def firstNonFile : List DirEntry → Option DirEntry
  | [] => none
  | f :: fs => if f.is_file then firstNonFile fs else some f

/-- SimpleDirectoryReader.__init__: enumerate the directory, apply the
hidden-file filter, then raise ValueError at the first remaining entry that
is not a regular file; on success keep the filtered entry list. -/
def init (entries : List DirEntry) (exclude_hidden : Bool) :
    Except PyErr (List DirEntry) :=
  let input_files := hiddenFilter exclude_hidden entries
  match firstNonFile input_files with
  | some f => Except.error (PyErr.valueError ("Expected " ++ f.name ++ " to be a file."))
  | none => Except.ok input_files

/-- SimpleDirectoryReader.load_data: read every retained file in enumeration
order; with concatenate, one Document holding the contents joined by a single
line break, otherwise one Document per file. -/
def load_data (input_files : List DirEntry) (concatenate : Bool) : List Document :=
  let data_list := input_files.map DirEntry.content
  if concatenate then [Document.mk (String.intercalate "\n" data_list) none]
  else data_list.map (fun d => Document.mk d none)

end SimpleDirectoryReader

namespace MockUtils

/-- mock_extract_keywords from tests/mock_utils/mock_utils.py, parameterized
by the simple_extract_keywords helper it delegates to (that helper is defined
outside the provided sources, so it stays abstract): the call always passes
filter_stopwords as False, whatever value the argument carries. -/
def mock_extract_keywords
    (simple_extract_keywords : String → Option Nat → Bool → List String)
    (text_chunk : String) (max_keywords : Option Nat) (filter_stopwords : Bool) :
    List String :=
  simple_extract_keywords text_chunk max_keywords false

/-- mock_extract_keywords_response: the same delegated call, its keyword set
joined with commas. -/
def mock_extract_keywords_response
    (simple_extract_keywords : String → Option Nat → Bool → List String)
    (text_chunk : String) (max_keywords : Option Nat) (filter_stopwords : Bool) :
    String :=
  String.intercalate "," (simple_extract_keywords text_chunk max_keywords false)

end MockUtils

/-- The texts a correct paginator yields from a list of pages: every page of
messages mapped to its text field, concatenated in page order. -/
def pageTexts : List SlackPage → List String
  | [] => []
  | p :: ps => p.messages.map SlackMessage.text ++ pageTexts ps

/-- A terminating cursor chain for a fetch function: the pages a cursor-driven
paginator starting at the given cursor obtains, each nonfinal page carrying
has_more and pointing at its successor through next_cursor, the final page
carrying has_more false. -/
inductive FetchChain (fetch : Option String → Except PyErr SlackPage) :
    Option String → List SlackPage → Prop
  | last (c : Option String) (p : SlackPage) (hf : fetch c = Except.ok p)
      (hm : p.has_more = false) : FetchChain fetch c [p]
  | more (c : Option String) (p : SlackPage) (c2 : String) (ps : List SlackPage)
      (hf : fetch c = Except.ok p) (hm : p.has_more = true)
      (hn : p.next_cursor = some c2) (hrest : FetchChain fetch (some c2) ps) :
      FetchChain fetch c (p :: ps)

/-- The text _read_channel would associate with a channel id when it returns
normally; an arbitrary default otherwise. -/
def chText (fetchHistory : String → Option String → Except PyErr SlackPage)
    (fetchReplies : String → String → Option String → Except PyErr SlackPage)
    (msgFuel fuel : Nat) (cid : String) : String :=
  match SlackReader.read_channel (fetchHistory cid) (fetchReplies cid) msgFuel fuel with
  | RunResult.ok t => t
  | RunResult.exn _ => ""
  | RunResult.diverge => ""

namespace Scenarios

/-- A channel message with text hello anchored at ts t1. -/
def m1 : SlackMessage := SlackMessage.mk "hello" "t1"

/-- A channel message with text world anchored at ts t2. -/
def m2 : SlackMessage := SlackMessage.mk "world" "t2"

/-- A replies fetch where every thread is a single page holding just the
anchor message drawn from the given message list. -/
def repliesOnePage (msgs : List SlackMessage) :
    String → Option String → Except PyErr SlackPage :=
  fun ts _ =>
    match msgs.find? (fun m => m.ts == ts) with
    | some m => Except.ok (SlackPage.mk [m] false none)
    | none => Except.ok (SlackPage.mk [] false none)

/-- A two-page history whose second page cannot be fetched: the first page
holds m1 and points at cursor cur2; any cursor-bearing request fails with a
SlackApiError. -/
def historyTwoPagesBad : Option String → Except PyErr SlackPage
  | none => Except.ok (SlackPage.mk [m1] true (some "cur2"))
  | some _ => Except.error (PyErr.slackApiError "second page failed")

/-- A well-formed two-page history: the first page holds m1 and points at
cursor cur2, under which the second page holds m2 and is final. -/
def historyTwoPages : Option String → Except PyErr SlackPage
  | none => Except.ok (SlackPage.mk [m1] true (some "cur2"))
  | some c =>
      if c = "cur2" then Except.ok (SlackPage.mk [m2] false none)
      else Except.error (PyErr.slackApiError "bad cursor")

/-- A history fetch where every channel is empty in a single final page. -/
def historyEmpty : String → Option String → Except PyErr SlackPage :=
  fun _ _ => Except.ok (SlackPage.mk [] false none)

/-- A replies fetch where every thread is empty in a single final page. -/
def repliesEmpty : String → String → Option String → Except PyErr SlackPage :=
  fun _ _ _ => Except.ok (SlackPage.mk [] false none)

/-- A history fetch that fails on every request. -/
def historyBoom : String → Option String → Except PyErr SlackPage :=
  fun _ _ => Except.error (PyErr.slackApiError "boom")

/-- A replies fetch that fails on every request. -/
def repliesBoom : String → String → Option String → Except PyErr SlackPage :=
  fun _ _ _ => Except.error (PyErr.slackApiError "boom")

/-- An anchor message for the thread scenario. -/
def msgA : SlackMessage := SlackMessage.mk "a" "ta"

/-- A single reply page: the anchor msgA first, then replies r1 and r2. -/
def replyPage : SlackPage :=
  SlackPage.mk [msgA, SlackMessage.mk "r1" "tr1", SlackMessage.mk "r2" "tr2"] false none

/-- A replies fetch returning replyPage for every thread request. -/
def repliesThree : String → Option String → Except PyErr SlackPage :=
  fun _ _ => Except.ok replyPage

/-- A single-page history holding just the anchor msgA. -/
def historyOneMsg : Option String → Except PyErr SlackPage :=
  fun _ => Except.ok (SlackPage.mk [msgA] false none)

end Scenarios

open SlackReader Scenarios

/-! Helper lemmas shared by the claim theorems. -/

/-- One iteration of the history loop of the two-page scenario: the cursored
fetch obtains the second page but its result is discarded, the cursor-less
refetch obtains the first page again, so the loop appends the first-page
thread text once more and recurses with the same cursor. -/
theorem readChannelLoop_twoPages_step (n : Nat) (acc : List String) :
    readChannelLoop historyTwoPages (repliesOnePage [m1, m2]) 2 (n + 1) acc (some "cur2")
      = readChannelLoop historyTwoPages (repliesOnePage [m1, m2]) 2 n
          (acc ++ ["hello"]) (some "cur2") := rfl

/-- The history loop of the two-page scenario never leaves the cursor of the
second page: it exhausts any fuel. -/
theorem readChannelLoop_twoPages_diverge (fuel : Nat) :
    ∀ acc, readChannelLoop historyTwoPages (repliesOnePage [m1, m2]) 2 fuel acc (some "cur2")
      = RunResult.diverge := by
  induction fuel with
  | zero => intro acc; rfl
  | succ n ih =>
      intro acc
      rw [readChannelLoop_twoPages_step n acc]
      exact ih (acc ++ ["hello"])

/-- If every channel read of a prefix returns normally, loadDataLoop appends
one tagged Document per channel id, in input order. -/
theorem loadDataLoop_ok (fh : String → Option String → Except PyErr SlackPage)
    (fr : String → String → Option String → Except PyErr SlackPage)
    (msgFuel fuel : Nat) :
    ∀ (ids : List String) (results docs : List Document),
      loadDataLoop fh fr msgFuel fuel ids results = RunResult.ok docs →
      docs = results ++ ids.map (fun cid =>
        Document.mk (chText fh fr msgFuel fuel cid) (some [("channel", cid)])) := by
  intro ids
  induction ids with
  | nil =>
      intro results docs h
      simp only [loadDataLoop] at h
      cases h
      simp
  | cons cid rest ih =>
      intro results docs h
      simp only [loadDataLoop] at h
      cases hrc : read_channel (fh cid) (fr cid) msgFuel fuel with
      | ok content =>
          rw [hrc] at h
          have hdocs := ih (results ++ [Document.mk content (some [("channel", cid)])]) docs h
          have hct : chText fh fr msgFuel fuel cid = content := by
            simp [chText, hrc]
          simp [hdocs, hct]
      | exn e => rw [hrc] at h; cases h
      | diverge => rw [hrc] at h; cases h

/-- A cursor chain is consumed whole by the reply loop: with fuel at least the
chain length, the loop returns the accumulated texts extended by the texts of
every page of the chain, in cursor order. -/
theorem readMessageLoop_chain (fetch : Option String → Except PyErr SlackPage)
    (c : Option String) (ps : List SlackPage) (h : FetchChain fetch c ps) :
    ∀ (extra : Nat) (texts : List String),
      readMessageLoop fetch (extra + ps.length) texts c
        = RunResult.ok (texts ++ pageTexts ps) := by
  induction h with
  | last c p hf hm =>
      intro extra texts
      show readMessageLoop fetch (extra + 1) texts c = _
      simp only [readMessageLoop, hf, hm, pageTexts]
      simp
  | more c p c2 ps hf hm hn hrest ih =>
      intro extra texts
      show readMessageLoop fetch (extra + (ps.length + 1)) texts c = _
      have hlen : extra + (ps.length + 1) = (extra + ps.length) + 1 := by omega
      rw [hlen]
      simp only [readMessageLoop, hf, hm, hn]
      rw [ih extra (texts ++ p.messages.map SlackMessage.text)]
      simp [pageTexts]

/-- _read_message over a cursor chain starting at None: the result is the
concatenated page texts joined with the blank-line separator. -/
theorem read_message_chain (fetch : Option String → Except PyErr SlackPage)
    (ps : List SlackPage) (h : FetchChain fetch none ps) (fuel : Nat)
    (hfuel : ps.length ≤ fuel) :
    read_message fetch fuel = RunResult.ok (String.intercalate "\n\n" (pageTexts ps)) := by
  obtain ⟨extra, rfl⟩ : ∃ e, fuel = e + ps.length := ⟨fuel - ps.length, by omega⟩
  unfold read_message
  rw [readMessageLoop_chain fetch none ps h extra []]
  simp

/-- If every listed message's thread read returns normally, the thread loop
appends one thread text per message, in page order. -/
theorem readThreads_ok (fr : String → Option String → Except PyErr SlackPage)
    (msgFuel : Nat) (g : SlackMessage → String) :
    ∀ (ms : List SlackMessage) (acc : List String),
      (∀ m ∈ ms, read_message (fr m.ts) msgFuel = RunResult.ok (g m)) →
      readThreads fr msgFuel ms acc = ThreadsResult.ok (acc ++ ms.map g) := by
  intro ms
  induction ms with
  | nil => intro acc _; simp [readThreads]
  | cons m rest ih =>
      intro acc hall
      have hm := hall m (by simp)
      simp only [readThreads, hm]
      rw [ih (acc ++ [g m]) (fun x hx => hall x (by simp [hx]))]
      simp

/-- The validation loop finds nothing exactly when every entry is a regular
file. -/
theorem firstNonFile_eq_none_iff (fs : List SimpleDirectoryReader.DirEntry) :
    SimpleDirectoryReader.firstNonFile fs = none ↔ ∀ f ∈ fs, f.is_file = true := by
  induction fs with
  | nil => simp [SimpleDirectoryReader.firstNonFile]
  | cons f rest ih =>
      cases hf : f.is_file with
      | true => simp [SimpleDirectoryReader.firstNonFile, hf, ih]
      | false =>
          simp only [SimpleDirectoryReader.firstNonFile, hf]
          constructor
          · intro h; exact absurd h (by simp)
          · intro h
            have := h f (by simp)
            rw [hf] at this
            exact absurd this (by simp)

/-- What the validation loop finds is a non-regular-file entry of the list. -/
theorem firstNonFile_eq_some (fs : List SimpleDirectoryReader.DirEntry)
    (f : SimpleDirectoryReader.DirEntry)
    (h : SimpleDirectoryReader.firstNonFile fs = some f) :
    f ∈ fs ∧ f.is_file = false := by
  induction fs with
  | nil => cases h
  | cons g rest ih =>
      by_cases hg : g.is_file = true
      · simp only [SimpleDirectoryReader.firstNonFile, hg, if_pos] at h
        have := ih h
        exact ⟨by simp [this.1], this.2⟩
      · simp only [SimpleDirectoryReader.firstNonFile, if_neg hg] at h
        cases h
        exact ⟨by simp, by simpa using hg⟩

/-! Claim theorems. -/

/-- C1: the claim states that when the first history page succeeds and the
second page fetch fails, ingestion returns a Document holding the first
page text, fully thread-expanded, and raises nothing. In the code the
cursor-bearing conversations_history call stands outside the try block, so
its SlackApiError propagates to the caller and the accumulated first-page
text is discarded: on the two-page scenario whose second fetch fails,
_read_channel raises instead of returning. -/
theorem secondPageFailure_propagates_to_caller :
    read_channel historyTwoPagesBad (repliesOnePage [m1]) 2 2
      = RunResult.exn (PyErr.slackApiError "second page failed") := rfl

/-- C2: the claim states that the channel paginator advances through pages by
the returned next-cursor, terminates exactly when has_more is false, and
yields every page exactly once. The code discards the cursored fetch result
and consumes a cursor-less refetch of the first page on every iteration, so
on a well-formed two-page history the loop never reaches the final page and
never terminates, whatever fuel it is given. -/
theorem multiPageChannel_never_terminates (fuel : Nat) :
    read_channel historyTwoPages (repliesOnePage [m1, m2]) 2 fuel
      = RunResult.diverge := by
  cases fuel with
  | zero => rfl
  | succ n =>
      unfold read_channel
      have step : readChannelLoop historyTwoPages (repliesOnePage [m1, m2]) 2 (n + 1) [] none
          = readChannelLoop historyTwoPages (repliesOnePage [m1, m2]) 2 n ["hello"]
              (some "cur2") := rfl
      rw [step, readChannelLoop_twoPages_diverge n ["hello"]]

/-- C5 counterexample: with the channel-id collection present but empty, the
ingestion raises nothing and returns the empty Document list, even under
fetch functions that fail on every request, refuting the claim that an empty
collection fails with an InvalidArgument condition. -/
theorem emptyChannelIds_no_error :
    load_data historyBoom repliesBoom 1 1 (some []) = RunResult.ok [] := rfl

/-- C5 amended: load_data raises ValueError exactly when the channel_ids
keyword is absent; an empty collection is accepted and yields the empty
Document list, immediately and with no fetch consulted, as the result is the
same for every pair of fetch functions. -/
theorem loadData_requires_channel_ids
    (fh : String → Option String → Except PyErr SlackPage)
    (fr : String → String → Option String → Except PyErr SlackPage)
    (msgFuel fuel : Nat) :
    load_data fh fr msgFuel fuel none
        = RunResult.exn (PyErr.valueError "Must specify a channel_id in load_kwargs.")
    ∧ load_data fh fr msgFuel fuel (some []) = RunResult.ok [] :=
  ⟨rfl, rfl⟩

/-- C6: the claim states that construction with no token argument and no
SLACK_BOT_TOKEN in the environment fails with a ValueError demanding a
token. The environment indexing raises KeyError first, before any client
construction or api_test call (the result does not depend on the injected
api_test), so the failure is immediate but of the wrong kind: the guarded
ValueError branch is unreachable. -/
theorem initMissingToken_raises_keyError (apiTest : String → SlackReader.ApiTestResponse) :
    SlackReader.init none (fun _ => none) apiTest
      = Except.error (PyErr.keyError "SLACK_BOT_TOKEN") := rfl

/-- C7: over entries a.txt holding foo and b.txt holding bar, in that
enumeration order, the directory reader built with hidden-file exclusion
retains both files; with concatenate true, load_data returns one Document
whose body joins the contents with a single line break, and with concatenate
false, two Documents with the respective bodies, in enumeration order. -/
theorem directoryLoader_concatenate_example :
    SimpleDirectoryReader.init
        [SimpleDirectoryReader.DirEntry.mk "a.txt" true "foo",
         SimpleDirectoryReader.DirEntry.mk "b.txt" true "bar"] true
      = Except.ok
          [SimpleDirectoryReader.DirEntry.mk "a.txt" true "foo",
           SimpleDirectoryReader.DirEntry.mk "b.txt" true "bar"]
    ∧ SimpleDirectoryReader.load_data
        [SimpleDirectoryReader.DirEntry.mk "a.txt" true "foo",
         SimpleDirectoryReader.DirEntry.mk "b.txt" true "bar"] true
      = [Document.mk "foo\nbar" none]
    ∧ SimpleDirectoryReader.load_data
        [SimpleDirectoryReader.DirEntry.mk "a.txt" true "foo",
         SimpleDirectoryReader.DirEntry.mk "b.txt" true "bar"] false
      = [Document.mk "foo" none, Document.mk "bar" none] :=
  ⟨rfl, rfl, rfl⟩

/-- C8: ingestion is deterministic in its inputs: two runs over the same
channel-id input against page-fetch functions that agree pointwise (an
unchanged remote data set) produce identical Document lists, bodies and
extra-info mappings included. -/
theorem loadData_deterministic
    (fh1 fh2 : String → Option String → Except PyErr SlackPage)
    (fr1 fr2 : String → String → Option String → Except PyErr SlackPage)
    (msgFuel fuel : Nat) (channel_ids : Option (List String))
    (hh : ∀ c cur, fh1 c cur = fh2 c cur)
    (hr : ∀ c ts cur, fr1 c ts cur = fr2 c ts cur) :
    load_data fh1 fr1 msgFuel fuel channel_ids
      = load_data fh2 fr2 msgFuel fuel channel_ids := by
  have h1 : fh1 = fh2 := funext fun c => funext fun cur => hh c cur
  have h2 : fr1 = fr2 := funext fun c => funext fun ts => funext fun cur => hr c ts cur
  rw [h1, h2]

/-- C8 witness: the determinism theorem applied at the empty-channel fetch
functions and a singleton channel collection. -/
theorem loadData_deterministic_witness :
    load_data historyEmpty repliesEmpty 1 1 (some ["c1"])
      = load_data historyEmpty repliesEmpty 1 1 (some ["c1"]) :=
  loadData_deterministic historyEmpty historyEmpty repliesEmpty repliesEmpty 1 1
    (some ["c1"]) (fun _ _ => rfl) (fun _ _ _ => rfl)

/-- C10: mock_extract_keywords forwards to simple_extract_keywords with
filter_stopwords False whatever its own filter_stopwords argument carries, so
the argument has no effect; mock_extract_keywords_response is the same
keyword collection joined with commas. -/
theorem mockExtractKeywords_ignores_filter
    (simple_extract_keywords : String → Option Nat → Bool → List String)
    (text_chunk : String) (max_keywords : Option Nat) (filter_stopwords : Bool) :
    MockUtils.mock_extract_keywords simple_extract_keywords text_chunk max_keywords
        filter_stopwords
      = simple_extract_keywords text_chunk max_keywords false
    ∧ MockUtils.mock_extract_keywords simple_extract_keywords text_chunk max_keywords
        filter_stopwords
      = MockUtils.mock_extract_keywords simple_extract_keywords text_chunk max_keywords true
    ∧ MockUtils.mock_extract_keywords_response simple_extract_keywords text_chunk
        max_keywords filter_stopwords
      = String.intercalate ","
          (MockUtils.mock_extract_keywords simple_extract_keywords text_chunk
            max_keywords filter_stopwords) :=
  ⟨rfl, rfl, rfl⟩

/-- C3: whenever load_data returns normally on a channel-id collection, the
result is exactly one Document per input id, in input order, each Document
tagged with an extra-info mapping holding exactly the channel entry for its
own id. -/
theorem loadData_one_document_per_channel
    (fh : String → Option String → Except PyErr SlackPage)
    (fr : String → String → Option String → Except PyErr SlackPage)
    (msgFuel fuel : Nat) (ids : List String) (docs : List Document)
    (h : load_data fh fr msgFuel fuel (some ids) = RunResult.ok docs) :
    docs = ids.map (fun cid =>
      Document.mk (chText fh fr msgFuel fuel cid) (some [("channel", cid)])) := by
  have hloop := loadDataLoop_ok fh fr msgFuel fuel ids [] docs h
  simpa using hloop

/-- C3 witness: the shape theorem applied to a two-channel collection under
the empty-channel fetch functions. -/
theorem loadData_one_document_per_channel_witness :
    [Document.mk "" (some [("channel", "c1")]), Document.mk "" (some [("channel", "c2")])]
      = (["c1", "c2"]).map (fun cid =>
          Document.mk (chText historyEmpty repliesEmpty 1 1 cid) (some [("channel", cid)])) :=
  loadData_one_document_per_channel historyEmpty repliesEmpty 1 1 ["c1", "c2"]
    [Document.mk "" (some [("channel", "c1")]), Document.mk "" (some [("channel", "c2")])] rfl

/-- C4: for every anchor message of a single final history page whose reply
thread is fetched without error along a cursor chain whose texts start with
the anchor, _read_message returns the thread record texts joined with the
blank-line separator in fetch order, anchor first; and _read_channel joins
the per-message thread strings with the same separator in history order, so
each thread string occupies the position of its anchor message. -/
theorem threadText_join_and_position
    (fh : Option String → Except PyErr SlackPage)
    (fr : String → Option String → Except PyErr SlackPage)
    (hist : SlackPage) (chains : SlackMessage → List SlackPage)
    (threadTexts : SlackMessage → List String) (msgFuel fuel : Nat)
    (hHist : fh none = Except.ok hist) (hMore : hist.has_more = false)
    (hChain : ∀ m ∈ hist.messages, FetchChain (fr m.ts) none (chains m))
    (hTexts : ∀ m ∈ hist.messages, pageTexts (chains m) = threadTexts m)
    (hAnchor : ∀ m ∈ hist.messages, ∃ tl, threadTexts m = m.text :: tl)
    (hmf : ∀ m ∈ hist.messages, (chains m).length ≤ msgFuel)
    (hfuel : 1 ≤ fuel) :
    (∀ m ∈ hist.messages, read_message (fr m.ts) msgFuel
        = RunResult.ok (String.intercalate "\n\n" (threadTexts m)))
    ∧ read_channel fh fr msgFuel fuel
        = RunResult.ok (String.intercalate "\n\n"
            (hist.messages.map (fun m => String.intercalate "\n\n" (threadTexts m)))) := by
  have hpart1 : ∀ m ∈ hist.messages, read_message (fr m.ts) msgFuel
      = RunResult.ok (String.intercalate "\n\n" (threadTexts m)) := by
    intro m hm
    rw [← hTexts m hm]
    exact read_message_chain (fr m.ts) (chains m) (hChain m hm) msgFuel (hmf m hm)
  refine ⟨hpart1, ?_⟩
  obtain ⟨n, rfl⟩ : ∃ n, fuel = n + 1 := ⟨fuel - 1, by omega⟩
  unfold read_channel
  simp only [readChannelLoop, hHist]
  rw [readThreads_ok fr msgFuel (fun m => String.intercalate "\n\n" (threadTexts m))
    hist.messages [] hpart1]
  simp [hMore]

/-- C4 witness: the join theorem applied to a history of one anchor whose
thread is the anchor followed by two replies in a single page. -/
theorem threadText_join_and_position_witness :
    read_message (repliesThree "ta") 1 = RunResult.ok "a\n\nr1\n\nr2"
    ∧ read_channel historyOneMsg repliesThree 1 1 = RunResult.ok "a\n\nr1\n\nr2" := by
  have h := threadText_join_and_position historyOneMsg repliesThree
    (SlackPage.mk [msgA] false none) (fun _ => [replyPage]) (fun _ => ["a", "r1", "r2"])
    1 1 rfl rfl
    (fun _ _ => FetchChain.last none replyPage rfl rfl)
    (fun _ _ => rfl)
    (fun m hm => by
      have hm2 : m = msgA := by simpa using hm
      subst hm2
      exact ⟨["r1", "r2"], rfl⟩)
    (fun _ _ => by simp)
    (by omega)
  exact ⟨h.1 msgA (by simp), h.2⟩

/-- C9: the non-regular-file rejection is a constructor-time check: for every
entry list, construction fails exactly when some entry remaining after the
hidden-file filter is not a regular file; and with hidden-file exclusion
requested, the dot filter runs before the check, so when every non-dot entry
is a regular file the constructor succeeds whatever dot-prefixed entries,
directories included, the enumeration holds. -/
theorem directoryReader_rejects_nonfile_at_init
    (entries : List SimpleDirectoryReader.DirEntry) (exclude_hidden : Bool) :
    ((∃ e, SimpleDirectoryReader.init entries exclude_hidden = Except.error e)
      ↔ ∃ f ∈ SimpleDirectoryReader.hiddenFilter exclude_hidden entries, f.is_file = false)
    ∧ ((∀ f ∈ entries, SimpleDirectoryReader.startsWithDot f.name = false → f.is_file = true) →
        SimpleDirectoryReader.init entries true
          = Except.ok (SimpleDirectoryReader.hiddenFilter true entries)) := by
  constructor
  · cases h : SimpleDirectoryReader.firstNonFile
        (SimpleDirectoryReader.hiddenFilter exclude_hidden entries) with
    | none =>
        simp only [SimpleDirectoryReader.init, h]
        constructor
        · rintro ⟨e, he⟩; cases he
        · rintro ⟨f, hf, hff⟩
          have := (firstNonFile_eq_none_iff _).1 h f hf
          rw [hff] at this
          exact absurd this (by simp)
    | some f =>
        simp only [SimpleDirectoryReader.init, h]
        constructor
        · intro _
          exact ⟨f, (firstNonFile_eq_some _ f h).1, (firstNonFile_eq_some _ f h).2⟩
        · intro _
          exact ⟨PyErr.valueError ("Expected " ++ f.name ++ " to be a file."), rfl⟩
  · intro hall
    have hnone : SimpleDirectoryReader.firstNonFile
        (SimpleDirectoryReader.hiddenFilter true entries) = none := by
      rw [firstNonFile_eq_none_iff]
      intro f hf
      simp only [SimpleDirectoryReader.hiddenFilter, if_pos] at hf
      have hmem := List.mem_filter.mp hf
      exact hall f hmem.1 (by simpa using hmem.2)
    simp only [SimpleDirectoryReader.init, hnone]

/-- C9 witness: the constructor-check theorem applied to an enumeration
holding a dot-prefixed directory and a regular file. -/
theorem directoryReader_rejects_nonfile_at_init_witness :
    SimpleDirectoryReader.init
        [SimpleDirectoryReader.DirEntry.mk ".git" false "",
         SimpleDirectoryReader.DirEntry.mk "a.txt" true "foo"] true
      = Except.ok (SimpleDirectoryReader.hiddenFilter true
          [SimpleDirectoryReader.DirEntry.mk ".git" false "",
           SimpleDirectoryReader.DirEntry.mk "a.txt" true "foo"]) :=
  (directoryReader_rejects_nonfile_at_init
    [SimpleDirectoryReader.DirEntry.mk ".git" false "",
     SimpleDirectoryReader.DirEntry.mk "a.txt" true "foo"] true).2 (by decide)

end GptIndex
